import Mathlib

/-!
Verification of the ioBroker.schlueter-thermostat adapter core against its
specification.  The JavaScript sources are shallowly embedded: JS numbers
become exact rationals (`ℚ`) or integers (`ℤ`), JS strings become Lean
`String`s processed as `List Char`, missing/non-finite numeric inputs become
`Option`, and the asynchronous poll/session machinery becomes explicit state
machines whose atomic steps are the synchronous segments between `await`
points of the single-threaded JS event loop.
-/

namespace Schlueter

/-! ## JS numeric primitives -/

/-- Model of JavaScript `String.prototype.trim`: strip whitespace from both
ends (structural, over the character list). -/
def trimChars (l : List Char) : List Char :=
  ((l.dropWhile Char.isWhitespace).reverse.dropWhile Char.isWhitespace).reverse

/-- Trim on whole strings, via `trimChars`. -/
def jsTrim (s : String) : String := String.mk (trimChars s.data)

/-- Model of JavaScript `Math.round`: round half toward positive infinity. -/
def jsRound (q : ℚ) : ℤ := ⌊q + 1/2⌋

/-- Model of JavaScript `Math.trunc`: round toward zero. -/
def jsTrunc (q : ℚ) : ℤ := if 0 ≤ q then ⌊q⌋ else ⌈q⌉

/-- Embedding of `clamp` from `src/lib/apply-handlers.js` line 8:
`(n, min, max) => Math.min(max, Math.max(min, n))`, on rationals. -/
def clampQ (n lo hi : ℚ) : ℚ := min hi (max lo n)

/-- The same `clamp` applied to an already-integral value
(`clamp(Math.trunc(dur), 1, 24*60)`). -/
def clampZ (n lo hi : ℤ) : ℤ := min hi (max lo n)

/-- Embedding of the `readNum` helper of `src/lib/apply-handlers.js`
lines 10-14: a staged state value is `none` when missing or non-finite,
in which case the default is used. -/
def readNumD (v : Option ℚ) (d : ℚ) : ℚ := v.getD d

/-- Embedding of `cToNum` from `src/lib/util.js` lines 23-29:
`Math.round(Number(tempC) * 100)`, `null` on non-finite input.
The JS function returns a number, modelled as the integer cast back to `ℚ`. -/
def cToNum (tempC : Option ℚ) : Option ℚ :=
  tempC.map fun n => ((jsRound (n * 100) : ℤ) : ℚ)

/-- Embedding of `numToC` from `src/lib/util.js` lines 9-21:
values with `|v| ≥ 100` are interpreted as hundredths of a degree
(`Math.round((n / 100) * 100) / 100`), smaller values are returned rounded
to two decimals (`Math.round(n * 100) / 100`); `null` on missing input. -/
def numToC (v : Option ℚ) : Option ℚ :=
  match v with
  | none => none
  | some n =>
    if 100 ≤ |n| then
      some (((jsRound (n / 100 * 100) : ℤ) : ℚ) / 100)
    else
      some (((jsRound (n * 100) : ℤ) : ℚ) / 100)

/-- Rounding a rational to two decimal places, JS style; used to state the
spec's reading of `numToC` ("v/100 rounded to two decimals"). -/
def roundTwo (x : ℚ) : ℚ := ((jsRound (x * 100) : ℤ) : ℚ) / 100

/-! ## Civil time

The JS `Date` object stores milliseconds since the Unix epoch and exposes
proleptic-Gregorian UTC field getters.  We embed that arithmetic with
Howard Hinnant's `civil_from_days` / `days_from_civil` algorithms. -/

/-- Gregorian calendar date (year, month 1-12, day 1-31) from a count of
days since 1970-01-01. -/
def civilFromDays (z0 : ℤ) : ℤ × ℕ × ℕ :=
  let z := z0 + 719468
  let era := z.fdiv 146097
  let doe := (z - era * 146097).toNat
  let yoe := (doe - doe / 1460 + doe / 36524 - doe / 146096) / 365
  let y := (yoe : ℤ) + era * 400
  let doy := doe - (365 * yoe + yoe / 4 - yoe / 100)
  let mp := (5 * doy + 2) / 153
  let d := doy - (153 * mp + 2) / 5 + 1
  let m := if mp < 10 then mp + 3 else mp - 9
  (if m ≤ 2 then y + 1 else y, m, d)

/-- Days since 1970-01-01 of a Gregorian date. -/
def daysFromCivil (y : ℤ) (m d : ℕ) : ℤ :=
  let y' := y - (if m ≤ 2 then 1 else 0)
  let era := y'.fdiv 400
  let yoe := (y' - era * 400).toNat
  let mp := if 2 < m then m - 3 else m + 9
  let doy := (153 * mp + 2) / 5 + d - 1
  let doe := yoe * 365 + yoe / 4 - yoe / 100 + doy
  era * 146097 + (doe : ℤ) - 719468

/-- Embedding of `pad2` from `lib/time.js` (src/unnamed/part_004) lines
51-53: `String(n).padStart(2, '0')`. -/
def pad2 (n : ℕ) : String := if n < 10 then "0" ++ toString n else toString n

/-- Format an epoch-milliseconds instant with the UTC getters of `Date` as
`"YYYY-MM-DDTHH:mm:ss"`.  This is the literal template of
`formatThermostatLocalNoZFromUtcMs` (lib/time.js lines 61-63) and also what
`toISOString()` yields once `.sssZ` is stripped (lib/time.js lines 45-48). -/
def formatUtcNoZ (ms : ℤ) : String :=
  let days := ms.fdiv 86400000
  let rem := (ms - days * 86400000).toNat
  let c := civilFromDays days
  let hh := rem / 3600000
  let mi := rem % 3600000 / 60000
  let ss := rem % 60000 / 1000
  toString c.1 ++ "-" ++ pad2 c.2.1 ++ "-" ++ pad2 c.2.2 ++ "T" ++
    pad2 hh ++ ":" ++ pad2 mi ++ ":" ++ pad2 ss

/-- Embedding of `formatThermostatLocalNoZFromUtcMs` (lib/time.js lines
55-64): shift the instant by the timezone offset (seconds, defaulting to 0
when non-finite, modelled by `Option`) and format with UTC getters. -/
def formatThermostatLocalNoZFromUtcMs (utcMs : ℤ) (timeZoneSec : Option ℤ) : String :=
  let tz := timeZoneSec.getD 0
  formatUtcNoZ (utcMs + tz * 1000)

/-- Embedding of `nowPlusMinutesUtcNoZ` (lib/time.js lines 43-49), the
encoder the shipped `apply-handlers.js` imports: `Date.now()` is passed in
explicitly as `nowMs`; the result is the ISO string of `now + minutes`
minutes with the `.sssZ` tail removed — UTC wall time, no zone marker. -/
def nowPlusMinutesUtcNoZ (nowMs : ℤ) (minutes : ℤ) : String :=
  formatUtcNoZ (nowMs + minutes * 60 * 1000)

/-- Definition following the spec's words (section 4.1 / section 8): the
wall-clock reading of the absolute instant `utcMs` in the fixed UTC offset
`offsetSec`, the offset applied exactly once. -/
def wallClockString (utcMs : ℤ) (offsetSec : ℤ) : String :=
  formatUtcNoZ (utcMs + offsetSec * 1000)

/-! ## The incoming end-time decoder, at string level

`toThermostatLocalNoZFromAny` (lib/time.js lines 7-40) works on raw strings
with regular expressions; we embed those regexes as `List Char` scanners. -/

/-- Test for the regex `[zZ]$`: the string ends in `z` or `Z`. -/
def endsWithZisChar (l : List Char) : Bool :=
  match l.getLast? with
  | some c => c = 'z' || c = 'Z'
  | none => false

/-- Test for the regex `[+-]\d{2}:?\d{2}$` as a suffix: the string ends in a
numeric offset, with or without a colon. -/
def hasOffsetSuffix (l : List Char) : Bool :=
  let r := l.reverse
  (match r with
   | a :: b :: c :: d :: e :: _ =>
     a.isDigit && b.isDigit && c.isDigit && d.isDigit && (e = '+' || e = '-')
   | _ => false) ||
  (match r with
   | a :: b :: c :: d :: e :: f :: _ =>
     a.isDigit && b.isDigit && c = ':' && d.isDigit && e.isDigit && (f = '+' || f = '-')
   | _ => false)

/-- Embedding of the zone test of lib/time.js line 16:
`/[zZ]$/.test(s) || /[+-]\d{2}:?\d{2}$/.test(s)`. -/
def hasZone (l : List Char) : Bool := endsWithZisChar l || hasOffsetSuffix l

/-- Whether the whole remaining string is exactly `[+-]\d{2}:?\d{2}`
(the third lookahead alternative of the fraction-stripping regex, and the
shape removed by `replace(/[+-]\d{2}:?\d{2}$/, '')`). -/
def isExactOffset : List Char → Bool
  | [s, a, b, c, d] =>
    (s = '+' || s = '-') && a.isDigit && b.isDigit && c.isDigit && d.isDigit
  | [s, a, b, c, d, e] =>
    (s = '+' || s = '-') && a.isDigit && b.isDigit && c = ':' && d.isDigit && e.isDigit
  | _ => false

/-- The lookahead `(?=($|[zZ]|[+-]\d{2}:?\d{2}$))` of the fraction-stripping
regex in `stripMsKeepLocalNoZ` (lib/time.js line 68), evaluated at the
position right after the candidate digits. -/
def fracLookahead : List Char → Bool
  | [] => true
  | c :: rest => c = 'z' || c = 'Z' || isExactOffset (c :: rest)

/-- Greedy match of `\d{1,3}` plus the lookahead, starting right after a
`'.'`; returns the rest of the string after the matched digits. -/
def fracMatchAt : List Char → Option (List Char)
  | a :: b :: c :: t =>
    if a.isDigit && b.isDigit && c.isDigit && fracLookahead t then some t
    else if a.isDigit && b.isDigit && fracLookahead (c :: t) then some (c :: t)
    else if a.isDigit && fracLookahead (b :: c :: t) then some (b :: c :: t)
    else none
  | [a, b] =>
    if a.isDigit && b.isDigit then some []
    else if a.isDigit && fracLookahead [b] then some [b]
    else none
  | [a] => if a.isDigit then some [] else none
  | [] => none

/-- First-occurrence replacement of `\.\d{1,3}(?=($|[zZ]|[+-]\d{2}:?\d{2}$))`
by the empty string (lib/time.js line 68). -/
def stripFrac : List Char → List Char
  | [] => []
  | c :: rest =>
    if c = '.' then
      match fracMatchAt rest with
      | some t => t
      | none => c :: stripFrac rest
    else c :: stripFrac rest

/-- Replacement of `/[zZ]$/` by the empty string. -/
def stripTrailingZ (l : List Char) : List Char :=
  if endsWithZisChar l then l.dropLast else l

/-- Replacement of `/[+-]\d{2}:?\d{2}$/` by the empty string. -/
def stripTrailingOffset (l : List Char) : List Char :=
  let r := l.reverse
  let six :=
    match r with
    | a :: b :: c :: d :: e :: f :: _ =>
      a.isDigit && b.isDigit && c = ':' && d.isDigit && e.isDigit && (f = '+' || f = '-')
    | _ => false
  let five :=
    match r with
    | a :: b :: c :: d :: e :: _ =>
      a.isDigit && b.isDigit && c.isDigit && d.isDigit && (e = '+' || e = '-')
    | _ => false
  if six then (r.drop 6).reverse
  else if five then (r.drop 5).reverse
  else l

/-- Embedding of `stripMsKeepLocalNoZ` (lib/time.js lines 66-70): strip a
sub-second fraction (first occurrence, only when end/zone follows), then a
trailing `z`/`Z`, then a trailing numeric offset.  The JS function also
trims; the caller has already trimmed, and we keep the trim here too. -/
def stripMsKeepLocalNoZ (l : List Char) : List Char :=
  stripTrailingOffset (stripTrailingZ (stripFrac l))

/-- Match of the naive-timestamp regex of lib/time.js line 27:
`^(\d{4})-(\d{2})-(\d{2})[T ](\d{2}):(\d{2})(?::(\d{2}))?$`; on success
returns the normalized output string built at lines 32-39 (seconds
defaulting to `"00"`, separator forced to `'T'`). -/
def naiveNormalize : List Char → Option (List Char)
  | [y1, y2, y3, y4, h1, m1, m2, h2, d1, d2, sep, hh1, hh2, c1, mi1, mi2] =>
    if y1.isDigit && y2.isDigit && y3.isDigit && y4.isDigit && h1 = '-' &&
       m1.isDigit && m2.isDigit && h2 = '-' && d1.isDigit && d2.isDigit &&
       (sep = 'T' || sep = ' ') && hh1.isDigit && hh2.isDigit && c1 = ':' &&
       mi1.isDigit && mi2.isDigit then
      some [y1, y2, y3, y4, '-', m1, m2, '-', d1, d2, 'T',
            hh1, hh2, ':', mi1, mi2, ':', '0', '0']
    else none
  | [y1, y2, y3, y4, h1, m1, m2, h2, d1, d2, sep, hh1, hh2, c1, mi1, mi2, c2, s1, s2] =>
    if y1.isDigit && y2.isDigit && y3.isDigit && y4.isDigit && h1 = '-' &&
       m1.isDigit && m2.isDigit && h2 = '-' && d1.isDigit && d2.isDigit &&
       (sep = 'T' || sep = ' ') && hh1.isDigit && hh2.isDigit && c1 = ':' &&
       mi1.isDigit && mi2.isDigit && c2 = ':' && s1.isDigit && s2.isDigit then
      some [y1, y2, y3, y4, '-', m1, m2, '-', d1, d2, 'T',
            hh1, hh2, ':', mi1, mi2, ':', s1, s2]
    else none
  | _ => none

/-- Numeric value of a list of decimal digit characters. -/
def digitsToNat (l : List Char) : ℕ :=
  l.foldl (fun acc c => 10 * acc + (c.toNat - 48)) 0

/-- Model of the V8 `new Date(s)` parser restricted to the ISO-8601
date-time-with-zone strings that the zoned branch of the decoder can feed
it (the branch is guarded by `hasZone`): `YYYY-MM-DD` `T`/space `HH:mm`,
optional `:ss`, optional `.f{1,3}`, then `Z`/`z` or `±HH:mm`/`±HHMM`.
Returns epoch milliseconds, `none` when the string does not parse
(`Number.isNaN(d.getTime())` in lib/time.js line 20). -/
def jsDateParseZoned (l : List Char) : Option ℤ :=
  match l with
  | y1 :: y2 :: y3 :: y4 :: h1 :: m1 :: m2 :: h2 :: d1 :: d2 :: sep :: rest =>
    if y1.isDigit && y2.isDigit && y3.isDigit && y4.isDigit && h1 = '-' &&
       m1.isDigit && m2.isDigit && h2 = '-' && d1.isDigit && d2.isDigit &&
       (sep = 'T' || sep = ' ') then
      let y := digitsToNat [y1, y2, y3, y4]
      let mo := digitsToNat [m1, m2]
      let da := digitsToNat [d1, d2]
      if 1 ≤ mo && mo ≤ 12 && 1 ≤ da && da ≤ 31 then
        match rest with
        | hh1 :: hh2 :: c1 :: mi1 :: mi2 :: rest2 =>
          if hh1.isDigit && hh2.isDigit && c1 = ':' && mi1.isDigit && mi2.isDigit then
            let hh := digitsToNat [hh1, hh2]
            let mi := digitsToNat [mi1, mi2]
            let secRest :=
              match rest2 with
              | c2 :: s1 :: s2 :: rest3 =>
                if c2 = ':' && s1.isDigit && s2.isDigit then
                  some (digitsToNat [s1, s2], rest3)
                else some (0, rest2)
              | _ => some (0, rest2)
            match secRest with
            | some (ss, rest3) =>
              let fracRest :=
                match rest3 with
                | '.' :: f1 :: f2 :: f3 :: rest4 =>
                  if f1.isDigit && f2.isDigit && f3.isDigit then
                    some (digitsToNat [f1, f2, f3], rest4)
                  else if f1.isDigit && f2.isDigit then
                    some (10 * digitsToNat [f1, f2], f3 :: rest4)
                  else if f1.isDigit then
                    some (100 * digitsToNat [f1], f2 :: f3 :: rest4)
                  else none
                | '.' :: f1 :: f2 :: [] =>
                  if f1.isDigit && f2.isDigit then some (10 * digitsToNat [f1, f2], [])
                  else if f1.isDigit then some (100 * digitsToNat [f1], [f2])
                  else none
                | '.' :: f1 :: [] =>
                  if f1.isDigit then some (100 * digitsToNat [f1], []) else none
                | '.' :: [] => none
                | _ => some (0, rest3)
              match fracRest with
              | some (ms3, zone) =>
                let offMin : Option ℤ :=
                  match zone with
                  | ['Z'] => some 0
                  | ['z'] => some 0
                  | [sg, o1, o2, ':', o3, o4] =>
                    if (sg = '+' || sg = '-') && o1.isDigit && o2.isDigit &&
                       o3.isDigit && o4.isDigit then
                      let v : ℤ := digitsToNat [o1, o2] * 60 + digitsToNat [o3, o4]
                      some (if sg = '-' then -v else v)
                    else none
                  | [sg, o1, o2, o3, o4] =>
                    if (sg = '+' || sg = '-') && o1.isDigit && o2.isDigit &&
                       o3.isDigit && o4.isDigit then
                      let v : ℤ := digitsToNat [o1, o2] * 60 + digitsToNat [o3, o4]
                      some (if sg = '-' then -v else v)
                    else none
                  | _ => none
                match offMin with
                | some off =>
                  if hh ≤ 23 && mi ≤ 59 && ss ≤ 59 then
                    some (daysFromCivil (y : ℤ) mo da * 86400000 +
                      (hh : ℤ) * 3600000 + (mi : ℤ) * 60000 + (ss : ℤ) * 1000 +
                      (ms3 : ℤ) - off * 60000)
                  else none
                | none => none
              | none => none
            | none => none
          else none
        | _ => none
      else none
    else none
  | _ => none

/-- Embedding of `toThermostatLocalNoZFromAny` (lib/time.js lines 7-40), the
incoming end-time decoder.  A falsy (`''`) input and a whitespace-only input
yield `''`; a zone-marked input is parsed as an absolute instant and
reformatted thermostat-locally (`''` when unparseable); a zone-less input is
normalized in place. -/
def toThermostatLocalNoZFromAny (value : String) (timeZoneSec : Option ℤ) : String :=
  if value = "" then "" else
  let s := jsTrim value
  if s = "" then "" else
  let l := s.data
  if hasZone l then
    match jsDateParseZoned l with
    | none => ""
    | some ms => formatThermostatLocalNoZFromUtcMs ms timeZoneSec
  else
    let noZone := stripMsKeepLocalNoZ l
    match naiveNormalize noZone with
    | none => String.mk noZone
    | some out => String.mk out

/-! ## ApplyRouter handlers (`src/lib/apply-handlers.js`) -/

/-- Clamped comfort setpoint of `handlers.comfort` lines 42-43:
staged value (default 22 when missing/non-finite) clamped to 12..35. -/
def comfortSetpointC (staged : Option ℚ) : ℚ := clampQ (readNumD staged 22) 12 35

/-- Clamped comfort duration of `handlers.comfort` lines 45-46: staged value
(default 180) truncated to an integer and clamped to 1..24*60. -/
def comfortDurationMin (staged : Option ℚ) : ℤ :=
  clampZ (jsTrunc (readNumD staged 180)) 1 (24 * 60)

/-- The outbound field set built by `handlers.comfort` lines 50-55. -/
structure ComfortPayload where
  thermostatName : String
  regulationMode : ℤ
  comfortSetpoint : Option ℚ
  comfortEndTime : String
  deriving Repr, DecidableEq

/-- Embedding of `handlers.comfort` (apply-handlers.js lines 41-58):
read staged setpoint/duration, clamp, encode the end time with
`nowPlusMinutesUtcNoZ`, and build the update payload. -/
def comfortHandler (nowMs : ℤ) (baseName : String) (spStaged duStaged : Option ℚ) :
    ComfortPayload :=
  let tempC := comfortSetpointC spStaged
  let dur := comfortDurationMin duStaged
  { thermostatName := baseName
    regulationMode := 2
    comfortSetpoint := cToNum (some tempC)
    comfortEndTime := nowPlusMinutesUtcNoZ nowMs dur }

/-- Embedding of the `isDay` check of `handlers.vacation` line 113:
`/^\d{4}-\d{2}-\d{2}$/.test(s)`. -/
def isDay (s : String) : Bool :=
  match s.data with
  | [a, b, c, d, h1, e, f, h2, g, h] =>
    a.isDigit && b.isDigit && c.isDigit && d.isDigit && h1 = '-' &&
    e.isDigit && f.isDigit && h2 = '-' && g.isDigit && h.isDigit
  | _ => false

/-- Observable outcome of one `handlers.vacation` run: which warnings were
logged, whether the device-update write was issued, and the payload. -/
structure VacationCall where
  warnedBegin : Bool
  warnedEnd : Bool
  writeIssued : Bool
  payloadName : String
  payloadEnabled : Bool
  payloadBegin : Option String
  payloadEnd : Option String
  payloadTemp : Option ℚ
  deriving Repr, DecidableEq

/-- Embedding of `handlers.vacation` (apply-handlers.js lines 105-142):
trim the staged day strings, clamp the temperature to 5..35 (default 12),
warn on non-`YYYY-MM-DD` day strings, and unconditionally issue the
device-update write, spreading each day field only when non-empty. -/
def vacationHandler (baseName : String) (enabled : Bool)
    (beginRaw endRaw : String) (tempStaged : Option ℚ) : VacationCall :=
  let b := jsTrim beginRaw
  let e := jsTrim endRaw
  let tempC := clampQ (readNumD tempStaged 12) 5 35
  { warnedBegin := b ≠ "" && !(isDay b)
    warnedEnd := e ≠ "" && !(isDay e)
    writeIssued := true
    payloadName := baseName
    payloadEnabled := enabled
    payloadBegin := if b = "" then none else some b
    payloadEnd := if e = "" then none else some e
    payloadTemp := cToNum (some tempC) }

/-! ## `onStateChange` (src/unnamed/part_008 lines 502-595) -/

/-- How the awaited `applyRouter(ctx)` call settles: normally, by throwing a
vendor business error (non-zero `ErrorCode`), by throwing a communication
error, or by throwing anything else. -/
inductive RouterOutcome
  | ok
  | thrownBusiness
  | thrownComm
  | thrownOther
  deriving Repr, DecidableEq

/-- Environment of one `onStateChange` invocation: every condition the
handler branches on, in source order. -/
structure StateChangeEnv where
  ack : Bool
  isApplyId : Bool
  clientPresent : Bool
  connReadable : Bool
  connTrue : Bool
  idWellFormed : Bool
  online : Bool
  serialKnown : Bool
  router : RouterOutcome
  deriving Repr, DecidableEq

/-- Observable result of one `onStateChange` invocation: the value (if any)
written back to the triggering control, whether the router was invoked, and
whether `info.connection` was cleared by the catch branch. -/
structure StateChangeResult where
  controlWritten : Option Bool
  routerInvoked : Bool
  connectionCleared : Bool
  deriving Repr, DecidableEq

/-- Embedding of `onStateChange` (part_008 lines 502-595): acked or
non-apply ids are ignored; a missing client is ignored; an unreadable or
false `info.connection`, an offline thermostat, or an unresolvable serial
resets the control and stops; otherwise the router runs inside
`try`/`catch`/`finally`, the catch clearing `info.connection` on
communication errors and the `finally` always writing the control to
`false`. -/
def onStateChangeModel (e : StateChangeEnv) : StateChangeResult :=
  if e.ack then ⟨none, false, false⟩
  else if !e.isApplyId then ⟨none, false, false⟩
  else if !e.clientPresent then ⟨none, false, false⟩
  else if !e.connReadable then ⟨some false, false, false⟩
  else if !e.connTrue then ⟨some false, false, false⟩
  else if !e.idWellFormed then ⟨none, false, false⟩
  else if !e.online then ⟨some false, false, false⟩
  else if !e.serialKnown then ⟨some false, false, false⟩
  else
    match e.router with
    | .thrownComm => ⟨some false, true, true⟩
    | _ => ⟨some false, true, false⟩

/-! ## SessionClient (`src/lib/oj-client.js`)

JavaScript is single-threaded with run-to-completion semantics: each caller
of `ensureSession()` executes synchronously up to the first `await` that
actually suspends.  `_loginOnce` (lines 42-54) checks and assigns
`this._loginInFlight` within one such synchronous segment, and the login
HTTP request is issued inside that same segment (the async IIFE runs up to
`http.post`).  We model that segment as one atomic step. -/

/-- Process-wide session state of `OJClient`: `sessionId` (line 26),
`_loginInFlight` holding the identity of the pending login promise
(line 33), and a counter of login HTTP requests actually issued. -/
structure SessionState where
  sessionId : Option ℕ
  loginInFlight : Option ℕ
  loginRequests : ℕ
  deriving Repr, DecidableEq

/-- One caller's synchronous prefix of `ensureSession()` (lines 74-78)
followed by `_loginOnce` (lines 42-54): returns the updated state and the
promise the caller awaits (`none` when `ensureSession` returns without
awaiting because a session already exists). -/
def ensureSessionStart (s : SessionState) : SessionState × Option ℕ :=
  match s.sessionId with
  | some _ => (s, none)
  | none =>
    match s.loginInFlight with
    | some p => (s, some p)
    | none =>
      let p := s.loginRequests
      ({ sessionId := s.sessionId
         loginInFlight := some p
         loginRequests := s.loginRequests + 1 }, some p)

/-- The login promise settling (lines 46-52 and 66-71): on success the
session id is stored by `login()`, and the `finally` always clears
`_loginInFlight`. -/
def loginResolve (s : SessionState) (ok : Bool) (tok : ℕ) : SessionState :=
  { sessionId := if ok then some tok else s.sessionId
    loginInFlight := none
    loginRequests := s.loginRequests }

/-- A burst of `n` concurrent `ensureSession()` calls: each caller runs its
synchronous prefix before the login response can arrive.  Returns the final
state and, per caller, the promise awaited. -/
def ensureSessionBurst : ℕ → SessionState → SessionState × List (Option ℕ)
  | 0, s => (s, [])
  | n + 1, s =>
    let r := ensureSessionStart s
    let r2 := ensureSessionBurst n r.1
    (r2.1, r.2 :: r2.2)

/-- Result of one call executed through a wrapper: success carries a value,
failure carries the HTTP status `_getHttpStatus` extracts (lines 37-39,
`null` when absent) and a tag identifying the error object. -/
inductive ReqOutcome (α : Type)
  | ok (v : α)
  | err (status : Option ℤ) (tag : ℕ)
  deriving Repr, DecidableEq

/-- How the two possible executions of `requestFn` and the re-login would
settle, fixed up front: the behavior of the outside world. -/
structure RetryBehavior (α : Type) where
  attempt1 : ReqOutcome α
  attempt2 : ReqOutcome α
  reloginOk : Bool
  deriving Repr, DecidableEq

/-- Observable trace of one `_withReloginRetry` run. -/
structure RetryTrace (α : Type) where
  result : ReqOutcome α
  attempts : ℕ
  relogins : ℕ
  sessionInvalidated : Bool
  deriving Repr, DecidableEq

/-- The auth test of oj-client.js line 86: `status === 401 || status === 403`. -/
def isAuthStatus : Option ℤ → Bool
  | some s => s == 401 || s == 403
  | none => false

/-- Embedding of `_withReloginRetry` (oj-client.js lines 81-99): run the
request; on a 401/403 failure invalidate the session, re-login once, and
retry exactly once, the retry's outcome propagating as is; when the
re-login itself fails the original error is rethrown; non-auth failures
propagate untouched. -/
def withReloginRetry (b : RetryBehavior α) : RetryTrace α :=
  match b.attempt1 with
  | .ok v => ⟨.ok v, 1, 0, false⟩
  | .err st tag =>
    if isAuthStatus st then
      if b.reloginOk then ⟨b.attempt2, 2, 1, true⟩
      else ⟨.err st tag, 1, 1, true⟩
    else ⟨.err st tag, 1, 0, false⟩

/-! ## PollScheduler (src/unnamed/part_008) -/

/-- Node's maximum timer delay, part_008 line 333. -/
def MAX_TIMER_MS : ℤ := 2147483647

/-- Embedding of the interval computation of `onReady` (part_008 lines
334-336): configured seconds (default 60 when non-finite), truncated to
milliseconds, clamped to at least 10000 and at most `MAX_TIMER_MS`.
`setInterval` (lines 343-345) then fires every `intervalMs` for the life of
the adapter; the timer is never re-created. -/
def computePollIntervalMs (pollIntervalSecRaw : Option ℚ) : ℤ :=
  let sec := readNumD pollIntervalSecRaw 60
  min MAX_TIMER_MS (max 10000 (jsTrunc (sec * 1000)))

/-- Failure-tracking state mutated by `pollOnce` (part_008 lines 74-76,
369-424): consecutive communication-failure count, the warn-once flag, and
the mirrored `info.connection` value. -/
structure PollCounters where
  pollFailCount : ℕ
  warnedNoCloud : Bool
  connection : Bool
  deriving Repr, DecidableEq

/-- Threshold of part_008 line 75. -/
def POLL_FAIL_THRESHOLD : ℕ := 3

/-- How one poll cycle's work settles. -/
inductive PollOutcome
  | success
  | commFail
  | otherFail
  deriving Repr, DecidableEq

/-- Embedding of the outcome handling inside `pollOnce` (part_008 lines
369-421): success resets the failure count and marks connected; a
communication failure increments the count and, from the third consecutive
one on, clears `info.connection`; a non-communication failure only logs. -/
def pollCycleStep (s : PollCounters) (o : PollOutcome) : PollCounters :=
  match o with
  | .success => { pollFailCount := 0, warnedNoCloud := false, connection := true }
  | .commFail =>
    let n := s.pollFailCount + 1
    if POLL_FAIL_THRESHOLD ≤ n then
      { pollFailCount := n, warnedNoCloud := true, connection := false }
    else
      { pollFailCount := n, warnedNoCloud := s.warnedNoCloud, connection := s.connection }
  | .otherFail => s

/-- The delay until the next scheduler tick after a cycle: `setInterval`
was armed once in `onReady` with the fixed `intervalMs`, so the delay is
independent of the counters. -/
def nextPollDelayMs (intervalMs : ℤ) (_s : PollCounters) : ℤ := intervalMs

/-- In-flight bookkeeping of `pollOnce` (part_008 lines 80-83, 352-427):
the `pollInFlight` flag, the `unloading` flag, the number of cycles whose
work is pending, and the number of cloud read requests issued. -/
structure PollFlight where
  pollInFlight : Bool
  unloading : Bool
  activeCycles : ℕ
  networkCalls : ℕ
  deriving Repr, DecidableEq

/-- Events driving the in-flight machine: a scheduler tick invoking
`pollOnce`, the pending cycle's promise settling (the `finally` of line
422-424), and `onUnload` setting `unloading`. -/
inductive PollEvent
  | tick
  | settle
  | unload
  deriving Repr, DecidableEq

/-- Embedding of the `pollOnce` guard and lifecycle (part_008 lines
352-427): a tick that finds `unloading` or `pollInFlight` set returns
before any network call (lines 354-356); otherwise the flag is set, the
cycle starts and issues its cloud read; the flag is cleared only by the
`finally` when the cycle's work settles. -/
def pollFlightStep (s : PollFlight) : PollEvent → PollFlight
  | .tick =>
    if s.unloading || s.pollInFlight then s
    else
      { pollInFlight := true
        unloading := s.unloading
        activeCycles := s.activeCycles + 1
        networkCalls := s.networkCalls + 1 }
  | .settle =>
    if s.pollInFlight then
      { pollInFlight := false
        unloading := s.unloading
        activeCycles := s.activeCycles - 1
        networkCalls := s.networkCalls }
    else s
  | .unload =>
    { pollInFlight := s.pollInFlight
      unloading := true
      activeCycles := s.activeCycles
      networkCalls := s.networkCalls }

/-- Adapter start state (part_008 lines 80-83) and a run of events. -/
def pollFlightRun (es : List PollEvent) : PollFlight :=
  es.foldl pollFlightStep ⟨false, false, 0, 0⟩

/-- Invariant of the in-flight machine: at most one cycle pending, and the
`pollInFlight` flag tracks exactly whether one is. -/
def PollInv (s : PollFlight) : Prop :=
  s.activeCycles ≤ 1 ∧ (s.pollInFlight = true ↔ s.activeCycles = 1)

/-! ## Theorems -/

lemma pollInv_step (s : PollFlight) (e : PollEvent) (h : PollInv s) :
    PollInv (pollFlightStep s e) := by
  obtain ⟨h1, h2⟩ := h
  cases e <;> simp only [pollFlightStep]
  · split
    · exact ⟨h1, h2⟩
    · rename_i hc
      simp only [Bool.or_eq_true] at hc
      push_neg at hc
      have hne : ¬ s.activeCycles = 1 := fun he => hc.2 (h2.mpr he)
      constructor
      · show s.activeCycles + 1 ≤ 1
        omega
      · show true = true ↔ s.activeCycles + 1 = 1
        simp only [true_iff]
        omega
  · split
    · rename_i hf
      have hone : s.activeCycles = 1 := h2.mp hf
      constructor
      · show s.activeCycles - 1 ≤ 1
        omega
      · show false = true ↔ s.activeCycles - 1 = 1
        simp only [Bool.false_eq_true, false_iff]
        omega
    · exact ⟨h1, h2⟩
  · exact ⟨h1, h2⟩

lemma pollInv_foldl (es : List PollEvent) :
    ∀ s : PollFlight, PollInv s → PollInv (es.foldl pollFlightStep s) := by
  induction es with
  | nil => intro s h; exact h
  | cons e es ih =>
    intro s h
    exact ih _ (pollInv_step s e h)

/-- C1: the shipped apply path encodes a future end time with
`nowPlusMinutesUtcNoZ` (UTC, no zone marker) and decodes it with
`toThermostatLocalNoZFromAny`, whose naive branch applies no offset — so the
offset is applied zero times, not once, and the decoded wall-clock time for
`now = 0`, `d = 60` minutes, `z = 3600` seconds is `now + d` in UTC
(`01:00:00`), one hour short of `now + d` in offset `z` (`02:00:00`), which
the claim (and the header comment of part_008 lines 26-28) requires. -/
theorem c1_shipped_path_applies_offset_zero_times :
    toThermostatLocalNoZFromAny (nowPlusMinutesUtcNoZ 0 60) (some 3600) =
      "1970-01-01T01:00:00"
    ∧ wallClockString (0 + 60 * 60 * 1000) 3600 = "1970-01-01T02:00:00"
    ∧ toThermostatLocalNoZFromAny (nowPlusMinutesUtcNoZ 0 60) (some 3600) ≠
      wallClockString (0 + 60 * 60 * 1000) 3600 := by
  refine ⟨by decide, by decide, by decide⟩

/-- C2 counterexample: starting from the base interval of 60 s, the cycle
after the first communication failure is scheduled 60000 ms later, not the
120000 ms the claimed doubling sequence `60,120,240,...` requires. -/
theorem c2_no_backoff_counterexample :
    nextPollDelayMs (computePollIntervalMs (some 60))
      (pollCycleStep ⟨0, false, true⟩ .commFail) = 60000
    ∧ (60000 : ℤ) ≠ 120000 := by
  constructor
  · unfold nextPollDelayMs computePollIntervalMs readNumD jsTrunc MAX_TIMER_MS
    norm_num
  · decide

/-- C2 amended: the poll delay is the fixed value
`min 2147483647 (max 10000 (trunc (configured·1000)))` milliseconds for
every cycle regardless of its outcome — there is no doubling, no 3600 s
cap and no 12:00/00:00 fallback; a communication failure only increments
`pollFailCount`, `info.connection` goes false from the third consecutive
communication failure on, stays as it was below the threshold, and one
success resets the count to 0 and the connection to true. -/
theorem c2_fixed_interval_amended (r : Option ℚ) (s : PollCounters) (o : PollOutcome) :
    nextPollDelayMs (computePollIntervalMs r) (pollCycleStep s o) = computePollIntervalMs r
    ∧ (o = .commFail → (pollCycleStep s o).pollFailCount = s.pollFailCount + 1)
    ∧ (o = .commFail → POLL_FAIL_THRESHOLD ≤ s.pollFailCount + 1 →
        (pollCycleStep s o).connection = false)
    ∧ (o = .commFail → s.pollFailCount + 1 < POLL_FAIL_THRESHOLD →
        (pollCycleStep s o).connection = s.connection)
    ∧ (o = .success → pollCycleStep s o = ⟨0, false, true⟩)
    ∧ (o = .otherFail → pollCycleStep s o = s) := by
  refine ⟨rfl, ?_, ?_, ?_, ?_, ?_⟩
  · intro h; subst h; simp only [pollCycleStep]; split <;> rfl
  · intro h hle; subst h; simp only [pollCycleStep]
    rw [if_pos hle]
  · intro h hlt; subst h; simp only [pollCycleStep]
    rw [if_neg (by omega)]
  · intro h; subst h; rfl
  · intro h; subst h; rfl

/-- C2 amended, witness: one communication failure from a fresh state bumps
the failure count from 0 to 1 while the delay stays at 60000 ms. -/
theorem c2_fixed_interval_amended_witness :
    nextPollDelayMs (computePollIntervalMs (some 60))
      (pollCycleStep ⟨0, false, true⟩ .commFail) = computePollIntervalMs (some 60)
    ∧ (pollCycleStep ⟨0, false, true⟩ PollOutcome.commFail).pollFailCount = 0 + 1 :=
  ⟨(c2_fixed_interval_amended (some 60) ⟨0, false, true⟩ .commFail).1,
   (c2_fixed_interval_amended (some 60) ⟨0, false, true⟩ .commFail).2.1 rfl⟩

/-- C6: the comfort handler clamps the staged setpoint to [12,35] °C with
default 22, truncates and clamps the staged duration to [1,1440] minutes
with default 180; setpoint 40 becomes 35, duration 0 becomes 1, duration
2000 becomes 1440, and the transmitted `ComfortSetpoint` is the clamped
value in integer hundredths of a degree. -/
theorem c6_comfort_clamps (sp du : Option ℚ) (nowMs : ℤ) (name : String) :
    12 ≤ comfortSetpointC sp ∧ comfortSetpointC sp ≤ 35
    ∧ comfortSetpointC none = 22
    ∧ 1 ≤ comfortDurationMin du ∧ comfortDurationMin du ≤ 1440
    ∧ comfortDurationMin none = 180
    ∧ comfortSetpointC (some 40) = 35
    ∧ comfortDurationMin (some 0) = 1
    ∧ comfortDurationMin (some 2000) = 1440
    ∧ (comfortHandler nowMs name sp du).comfortSetpoint =
        some ((jsRound (comfortSetpointC sp * 100) : ℤ) : ℚ)
    ∧ (comfortHandler nowMs name sp du).comfortEndTime =
        nowPlusMinutesUtcNoZ nowMs (comfortDurationMin du) := by
  refine ⟨?_, ?_, ?_, ?_, ?_, ?_, ?_, ?_, ?_, rfl, rfl⟩
  · exact le_min (by norm_num) (le_max_left _ _)
  · exact min_le_left _ _
  · decide
  · exact le_min (by norm_num) (le_max_left _ _)
  · exact min_le_left _ _
  · decide
  · decide
  · decide
  · decide

/-- C7 counterexample: the zone-less input `"garbage"` cannot be parsed as a
timestamp, yet the decoder returns it unchanged instead of the empty string
the claim requires. -/
theorem c7_naive_garbage_counterexample :
    toThermostatLocalNoZFromAny "garbage" (some 3600) = "garbage"
    ∧ ("garbage" : String) ≠ "" := by
  refine ⟨by decide, by decide⟩

/-- C7 amended: the decoder is total (never throws, by construction); it
returns `""` when the input trims to the empty string and when the input
carries a zone marker that the `Date` parse rejects; a zone-less input that
fails the local-timestamp pattern is instead returned after
fraction/zone-suffix stripping, not turned into `""`. -/
theorem c7_decoder_empty_cases_amended (s : String) (tz : Option ℤ) :
    (jsTrim s = "" → toThermostatLocalNoZFromAny s tz = "")
    ∧ (hasZone (jsTrim s).data = true → jsDateParseZoned (jsTrim s).data = none →
        toThermostatLocalNoZFromAny s tz = "")
    ∧ (hasZone (jsTrim s).data = false →
        naiveNormalize (stripMsKeepLocalNoZ (jsTrim s).data) = none →
        toThermostatLocalNoZFromAny s tz = String.mk (stripMsKeepLocalNoZ (jsTrim s).data)) := by
  refine ⟨?_, ?_, ?_⟩
  · intro ht
    unfold toThermostatLocalNoZFromAny
    by_cases h0 : s = ""
    · simp [h0]
    · simp [h0, ht]
  · intro hz hp
    unfold toThermostatLocalNoZFromAny
    by_cases h0 : s = ""
    · simp [h0]
    · by_cases ht : jsTrim s = ""
      · simp [h0, ht]
      · simp [h0, ht, hz, hp]
  · intro hz hn
    unfold toThermostatLocalNoZFromAny
    by_cases h0 : s = ""
    · subst h0
      simp only [if_pos rfl]
      rfl
    · by_cases ht : jsTrim s = ""
      · rw [ht] at hn ⊢
        simp [h0, ht]
        rfl
      · simp [h0, ht, hz, hn]

/-- C7 amended, witness: the empty input decodes to the empty string. -/
theorem c7_decoder_empty_cases_amended_witness :
    toThermostatLocalNoZFromAny "" (some 3600) = "" :=
  (c7_decoder_empty_cases_amended "" (some 3600)).1 rfl

/-- C8: the vacation handler always issues the device-update write; a
non-empty staged day string that fails the `YYYY-MM-DD` pattern produces a
logged warning while the staged value is still placed in the payload —
validation never blocks the call. -/
theorem c8_vacation_never_blocks (name : String) (en : Bool)
    (bRaw eRaw : String) (t : Option ℚ) :
    (vacationHandler name en bRaw eRaw t).writeIssued = true
    ∧ (jsTrim bRaw ≠ "" → isDay (jsTrim bRaw) = false →
        (vacationHandler name en bRaw eRaw t).warnedBegin = true
        ∧ (vacationHandler name en bRaw eRaw t).payloadBegin = some (jsTrim bRaw))
    ∧ (jsTrim eRaw ≠ "" → isDay (jsTrim eRaw) = false →
        (vacationHandler name en bRaw eRaw t).warnedEnd = true
        ∧ (vacationHandler name en bRaw eRaw t).payloadEnd = some (jsTrim eRaw)) := by
  refine ⟨rfl, ?_, ?_⟩
  · intro h1 h2
    constructor
    · simp [vacationHandler, h1, h2]
    · simp [vacationHandler, h1]
  · intro h1 h2
    constructor
    · simp [vacationHandler, h1, h2]
    · simp [vacationHandler, h1]

/-- C8 witness: a begin day with the wrong separator (`"2024/01/01"`) warns
but the write is still issued, carrying the staged value. -/
theorem c8_vacation_never_blocks_witness :
    (vacationHandler "N" true "2024/01/01" "" none).writeIssued = true
    ∧ (vacationHandler "N" true "2024/01/01" "" none).warnedBegin = true
    ∧ (vacationHandler "N" true "2024/01/01" "" none).payloadBegin = some "2024/01/01" :=
  ⟨(c8_vacation_never_blocks "N" true "2024/01/01" "" none).1,
   ((c8_vacation_never_blocks "N" true "2024/01/01" "" none).2.1 (by decide) (by decide)).1,
   ((c8_vacation_never_blocks "N" true "2024/01/01" "" none).2.1 (by decide) (by decide)).2⟩

/-- C10: `numToC` returns `v/100` rounded to two decimals when `|v| ≥ 100`
and `v` itself rounded to two decimals when `|v| < 100`; hence the
round-trip `numToC (cToNum t) = t` holds for every two-decimal temperature
`t = k/100` with `|t| ≥ 1` and fails at `t = 0.5`, which round-trips to
`50`. -/
theorem c10_numToC_roundtrip :
    (∀ v : ℚ, (100 ≤ |v| → numToC (some v) = some (roundTwo (v / 100)))
            ∧ (|v| < 100 → numToC (some v) = some (roundTwo v)))
    ∧ (∀ k : ℤ, 100 ≤ |k| →
        numToC (cToNum (some ((k : ℚ) / 100))) = some ((k : ℚ) / 100))
    ∧ numToC (cToNum (some (1/2 : ℚ))) = some 50
    ∧ ((1/2 : ℚ) ≠ 50) := by
  have hjr : ∀ k : ℤ, jsRound (k : ℚ) = k := by
    intro k
    unfold jsRound
    rw [add_comm, Int.floor_add_int]
    norm_num
  have hcast : ∀ k : ℤ, ((k : ℚ) / 100) * 100 = (k : ℚ) := by
    intro k
    field_simp
  refine ⟨?_, ?_, by unfold numToC cToNum jsRound; norm_num, by norm_num⟩
  · intro v
    constructor
    · intro h
      simp only [numToC, roundTwo, if_pos h]
    · intro h
      simp only [numToC, roundTwo, if_neg (not_le.mpr h)]
  · intro k hk
    have h1 : cToNum (some ((k : ℚ) / 100)) = some ((k : ℤ) : ℚ) := by
      show some (((jsRound ((k : ℚ) / 100 * 100) : ℤ)) : ℚ) = some ((k : ℤ) : ℚ)
      rw [hcast k, hjr k]
    rw [h1]
    have habs : (100 : ℚ) ≤ |((k : ℤ) : ℚ)| := by
      rw [← Int.cast_abs]
      exact_mod_cast hk
    simp only [numToC, if_pos habs]
    rw [hcast k, hjr k]

/-- C10 witness: the round-trip holds at `t = 1.23` (`k = 123`). -/
theorem c10_numToC_roundtrip_witness :
    numToC (cToNum (some (((123 : ℤ) : ℚ) / 100))) = some (((123 : ℤ) : ℚ) / 100) :=
  c10_numToC_roundtrip.2.1 123 (by decide)

lemma ensureSessionBurst_pending (n : ℕ) :
    ensureSessionBurst n ⟨none, some 0, 1⟩ =
      (⟨none, some 0, 1⟩, List.replicate n (some 0)) := by
  induction n with
  | zero => rfl
  | succ n ih =>
    simp only [ensureSessionBurst, ensureSessionStart, ih, List.replicate_succ]

/-- C3: any number `n ≥ 1` of concurrent `ensureSession()` calls starting
with no session and no login in flight issue exactly one login request, and
every caller awaits that same single in-flight attempt (promise 0). -/
theorem c3_single_flight_login (n : ℕ) (h : 1 ≤ n) :
    (ensureSessionBurst n ⟨none, none, 0⟩).1.loginRequests = 1
    ∧ ∀ w ∈ (ensureSessionBurst n ⟨none, none, 0⟩).2, w = some 0 := by
  obtain ⟨m, rfl⟩ : ∃ m, n = m + 1 := ⟨n - 1, by omega⟩
  have hstep : ensureSessionStart ⟨none, none, 0⟩ = (⟨none, some 0, 1⟩, some 0) := rfl
  have hrun : ensureSessionBurst (m + 1) ⟨none, none, 0⟩
      = (⟨none, some 0, 1⟩, some 0 :: List.replicate m (some 0)) := by
    simp only [ensureSessionBurst, hstep, ensureSessionBurst_pending m]
  rw [hrun]
  refine ⟨rfl, ?_⟩
  intro w hw
  rcases List.mem_cons.mp hw with h1 | h1
  · exact h1
  · exact List.eq_of_mem_replicate h1

/-- C3 witness: three concurrent callers, one login request, all awaiting
promise 0. -/
theorem c3_single_flight_login_witness :
    (ensureSessionBurst 3 ⟨none, none, 0⟩).1.loginRequests = 1
    ∧ ∀ w ∈ (ensureSessionBurst 3 ⟨none, none, 0⟩).2, w = some 0 :=
  c3_single_flight_login 3 (by decide)

/-- C4: through the retry wrapper, a 401/403 failure invalidates the
session, performs exactly one fresh login and retries exactly once, the
retried attempt's outcome — including a second auth failure — propagating
unchanged with no further re-login; a non-auth failure propagates unchanged
with no re-login; a successful call involves no re-login at all; and when
the single re-login itself fails, the original error propagates with no
retry. -/
theorem c4_relogin_retry_once {α : Type} (b : RetryBehavior α) :
    (∀ v, b.attempt1 = .ok v → withReloginRetry b = ⟨.ok v, 1, 0, false⟩)
    ∧ (∀ st tag, b.attempt1 = .err st tag → isAuthStatus st = true →
        b.reloginOk = true → withReloginRetry b = ⟨b.attempt2, 2, 1, true⟩)
    ∧ (∀ st tag, b.attempt1 = .err st tag → isAuthStatus st = false →
        withReloginRetry b = ⟨.err st tag, 1, 0, false⟩)
    ∧ (∀ st tag, b.attempt1 = .err st tag → isAuthStatus st = true →
        b.reloginOk = false → withReloginRetry b = ⟨.err st tag, 1, 1, true⟩) := by
  refine ⟨?_, ?_, ?_, ?_⟩
  · intro v h
    simp [withReloginRetry, h]
  · intro st tag h ha hr
    simp [withReloginRetry, h, ha, hr]
  · intro st tag h ha
    simp [withReloginRetry, h, ha]
  · intro st tag h ha hr
    simp [withReloginRetry, h, ha, hr]

/-- C4 witness: first attempt fails 401, re-login succeeds, retry fails 403;
the second auth failure propagates as is with exactly one re-login. -/
theorem c4_relogin_retry_once_witness :
    withReloginRetry (⟨.err (some 401) 0, .err (some 403) 1, true⟩ : RetryBehavior ℕ)
      = ⟨.err (some 403) 1, 2, 1, true⟩ :=
  (c4_relogin_retry_once ⟨.err (some 401) 0, .err (some 403) 1, true⟩).2.1
    (some 401) 0 rfl (by decide) rfl

/-- C5: whenever an apply-button state change actually reaches the command
handler (the router is invoked), the handler ends with the triggering
boolean control written back to `false`, whether the command succeeded, was
rejected by the vendor, or threw a communication or other exception. -/
theorem c5_control_always_reset (e : StateChangeEnv)
    (h : (onStateChangeModel e).routerInvoked = true) :
    (onStateChangeModel e).controlWritten = some false := by
  unfold onStateChangeModel at h ⊢
  split_ifs at h ⊢
  all_goals try simp_all
  clear h
  cases e.router
  all_goals rfl

/-- C5 witness: a communication exception thrown by the router still ends
with the control reset to `false`. -/
theorem c5_control_always_reset_witness :
    (onStateChangeModel
      ⟨false, true, true, true, true, true, true, true, .thrownComm⟩).controlWritten
      = some false :=
  c5_control_always_reset ⟨false, true, true, true, true, true, true, true, .thrownComm⟩ rfl

/-- C9: a scheduler tick firing while a cycle is in flight leaves the state
untouched — in particular it issues no network call; from the adapter's
start state at most one cycle is ever in flight, the flag tracking exactly
whether one is; and the flag is cleared only by the settling of the
in-flight cycle's work. -/
theorem c9_poll_tick_dropped_while_in_flight :
    (∀ s : PollFlight, s.pollInFlight = true → pollFlightStep s .tick = s)
    ∧ (∀ es : List PollEvent, (pollFlightRun es).activeCycles ≤ 1
        ∧ ((pollFlightRun es).pollInFlight = true ↔ (pollFlightRun es).activeCycles = 1))
    ∧ (∀ (s : PollFlight) (e : PollEvent), (pollFlightStep s e).pollInFlight = false →
        s.pollInFlight = false ∨ e = .settle) := by
  refine ⟨?_, ?_, ?_⟩
  · intro s hs
    simp only [pollFlightStep]
    rw [if_pos]
    simp [hs]
  · intro es
    exact pollInv_foldl es ⟨false, false, 0, 0⟩ ⟨by decide, by decide⟩
  · intro s e h
    cases e
    · simp only [pollFlightStep] at h
      by_cases hc : (s.unloading || s.pollInFlight) = true
      · rw [if_pos hc] at h
        exact Or.inl h
      · rw [if_neg hc] at h
        exact absurd h (by simp)
    · exact Or.inr rfl
    · simp only [pollFlightStep] at h
      exact Or.inl h

/-- C9 witness: with a cycle in flight, a tick changes nothing (same state,
same network-call count). -/
theorem c9_poll_tick_dropped_while_in_flight_witness :
    pollFlightStep ⟨true, false, 1, 1⟩ .tick = ⟨true, false, 1, 1⟩ :=
  c9_poll_tick_dropped_while_in_flight.1 ⟨true, false, 1, 1⟩ rfl

end Schlueter
